import Mathlib

/-!
Shallow embedding of the Swappo authentication microservice
(`app/auth.py`, `app/database.py`, `app/main.py`, in-memory backend),
with theorems checking the specification's claims against the code.
-/

namespace Swappo

/-- An HTTP error response, as raised by `fastapi.HTTPException`. -/
structure HTTPException where
  status_code : Nat
  detail : String
deriving DecidableEq, Repr

/-! ## Password hashing (`app/auth.py`, bcrypt wrapper) -/

/-- Modelled from the spec: the bcrypt hash string produced by
`bcrypt.hashpw` embeds the salt and a digest that, for a fixed salt,
determines the plaintext (ideal collision-free salted hash). The digest
is represented by the plaintext itself, which is faithful to the
contract "verify(plaintext, hash) is true iff plaintext reproduces the
hash under the embedded salt". -/
structure BcryptHash where
  salt : Nat
  digest_of : String
deriving DecidableEq, Repr

/-- Modelled from the spec: `bcrypt.hashpw(password, salt)` — applies the
given salt; the salt itself comes from `bcrypt.gensalt()`, a fresh random
value per call, which the embedding passes in explicitly. -/
def bcrypt_hashpw (password : String) (salt : Nat) : BcryptHash :=
  ⟨salt, password⟩

/-- Modelled from the spec: `bcrypt.checkpw(password, hashed)` — true iff
the password, hashed with the salt embedded in `hashed`, reproduces it. -/
def bcrypt_checkpw (password : String) (hashed : BcryptHash) : Bool :=
  bcrypt_hashpw password hashed.salt = hashed

/-- `verify_password` from `app/auth.py`: verify a password against its hash. -/
def verify_password (plain_password : String) (hashed_password : BcryptHash) : Bool :=
  bcrypt_checkpw plain_password hashed_password

/-- `get_password_hash` from `app/auth.py`: hash a password with a fresh
salt (`bcrypt.gensalt()`); the fresh salt is passed in explicitly. -/
def get_password_hash (password : String) (salt : Nat) : BcryptHash :=
  bcrypt_hashpw password salt

/-! ## JWT tokens (`app/auth.py`, python-jose wrapper) -/

/-- The two signing secrets: `SECRET_KEY` and `REFRESH_SECRET_KEY`.
They are distinct independent random values (or distinct env vars). -/
inductive SigningKey
  | secret_key
  | refresh_secret_key
deriving DecidableEq, Repr

/-- The claim set of a token as built by the issuance functions:
`sub`, `email`, `exp`, and the kind discriminator `"type"`. -/
structure JwtPayload where
  sub : Option String
  email : Option String
  exp : Nat
  typ : String
deriving DecidableEq, Repr

/-- Modelled from the spec: a signed JWT string is self-describing; it
determines its claim set and the key it was signed with. -/
structure Jwt where
  payload : JwtPayload
  key : SigningKey
deriving DecidableEq, Repr

/-- `ACCESS_TOKEN_EXPIRE_MINUTES` default, in seconds. -/
def ACCESS_TOKEN_EXPIRE_SECONDS : Nat := 30 * 60

/-- `REFRESH_TOKEN_EXPIRE_DAYS` default (7 days), in seconds. -/
def REFRESH_TOKEN_EXPIRE_SECONDS : Nat := 7 * 86400

/-- Modelled from the spec: `jose.jwt.decode(token, secret, [HS256])` —
succeeds with the claim set iff the token was signed with `key` and its
`exp` claim has not passed; otherwise raises `JWTError`. -/
def jwt_decode (token : Jwt) (key : SigningKey) (now : Nat) : Option JwtPayload :=
  if token.key = key ∧ now ≤ token.payload.exp then some token.payload else none

/-- `create_access_token` from `app/auth.py`, at the claim sets the flows
pass (`sub`, `email`): adds `exp = now + delta` (default 30 minutes) and
`type = "access"`, signs with `SECRET_KEY`. -/
def create_access_token (sub email : String) (now : Nat) (expires_delta : Option Nat) : Jwt :=
  let expire : Nat :=
    match expires_delta with
    | some d => now + d
    | none => now + ACCESS_TOKEN_EXPIRE_SECONDS
  ⟨⟨some sub, some email, expire, "access"⟩, .secret_key⟩

/-- `create_refresh_token` from `app/auth.py`: adds
`exp = now + 7 days` and `type = "refresh"`, signs with `REFRESH_SECRET_KEY`. -/
def create_refresh_token (sub email : String) (now : Nat) : Jwt :=
  ⟨⟨some sub, some email, now + REFRESH_TOKEN_EXPIRE_SECONDS, "refresh"⟩, .refresh_secret_key⟩

/-- `verify_token` from `app/auth.py`: decodes with the secret selected
by `token_type`; a decode failure (`JWTError`) gives 401
"Could not validate credentials"; a decoded payload whose `type` claim
differs from `token_type` gives 401 "Invalid token type". -/
def verify_token (token : Jwt) (token_type : String) (now : Nat) :
    Except HTTPException JwtPayload :=
  let secret := if token_type == "access" then SigningKey.secret_key
                else SigningKey.refresh_secret_key
  match jwt_decode token secret now with
  | none => .error ⟨401, "Could not validate credentials"⟩
  | some payload =>
    if payload.typ ≠ token_type then .error ⟨401, "Invalid token type"⟩
    else .ok payload

/-- The identity extracted from an access token by `get_current_user`. -/
structure CurrentUser where
  user_id : String
  email : String
deriving DecidableEq, Repr

/-- `get_current_user` from `app/auth.py`: verifies the bearer token as
kind "access" and requires the `sub` and `email` claims to be present
(`is None` checks; empty strings pass). -/
def get_current_user (token : Jwt) (now : Nat) : Except HTTPException CurrentUser :=
  match verify_token token "access" now with
  | .error e => .error e
  | .ok payload =>
    match payload.sub, payload.email with
    | some user_id, some email => .ok ⟨user_id, email⟩
    | _, _ => .error ⟨401, "Could not validate credentials"⟩

/-! ## In-memory credential store (`app/database.py`) -/

/-- A user record as stored in `users_db`. -/
structure User where
  id : String
  email : String
  username : String
  hashed_password : BcryptHash
  full_name : Option String
  created_at : Nat
  is_active : Bool
deriving DecidableEq, Repr

/-- The two module-level dicts: `users_db` (id → user) and
`user_email_index` (email → id). -/
structure DB where
  users_db : String → Option User
  user_email_index : String → Option String

/-- The initial empty store. -/
def DB.empty : DB := ⟨fun _ => none, fun _ => none⟩

/-- `get_user_by_email` from `app/database.py`: looks up the email index,
then (only for a truthy, i.e. non-empty, id) the user record. -/
def get_user_by_email (db : DB) (email : String) : Option User :=
  match db.user_email_index email with
  | some user_id => if user_id = "" then none else db.users_db user_id
  | none => none

/-- `get_user_by_id` from `app/database.py`. -/
def get_user_by_id (db : DB) (user_id : String) : Option User :=
  db.users_db user_id

/-- `create_user` from `app/database.py`: unconditionally inserts under a
fresh uuid (passed in explicitly), sets `is_active = True` and
`created_at = now`, and points the email index at the new id. -/
def create_user (db : DB) (user_id email username : String)
    (hashed_password : BcryptHash) (full_name : Option String) (now : Nat) :
    User × DB :=
  let user : User := ⟨user_id, email, username, hashed_password, full_name, now, true⟩
  (user,
   ⟨fun k => if k = user_id then some user else db.users_db k,
    fun e => if e = email then some user_id else db.user_email_index e⟩)

/-- `update_user_password` from `app/database.py`: replaces the stored
hash when the id is present, returns false (store untouched) otherwise. -/
def update_user_password (db : DB) (user_id : String) (hashed_password : BcryptHash) :
    Bool × DB :=
  match db.users_db user_id with
  | some u =>
    (true,
     { db with users_db := fun k =>
        if k = user_id then some { u with hashed_password := hashed_password }
        else db.users_db k })
  | none => (false, db)

/-- `deactivate_user` from `app/database.py`: flips `is_active` to false
when the id is present. -/
def deactivate_user (db : DB) (user_id : String) : Bool × DB :=
  match db.users_db user_id with
  | some u =>
    (true,
     { db with users_db := fun k =>
        if k = user_id then some { u with is_active := false }
        else db.users_db k })
  | none => (false, db)

/-! ## Orchestrator flows (`app/main.py`, in-memory branch) -/

/-- The public user view (`UserResponse` in `app/models.py`); pydantic
drops the extra `hashed_password` key (`extra` defaults to ignore). -/
structure UserResponse where
  id : String
  email : String
  username : String
  full_name : Option String
  created_at : Nat
  is_active : Bool
deriving DecidableEq, Repr

/-- `UserResponse(**user)`. -/
def User.toResponse (u : User) : UserResponse :=
  ⟨u.id, u.email, u.username, u.full_name, u.created_at, u.is_active⟩

/-- The `Token` response model: an access/refresh pair plus kind marker. -/
structure TokenPair where
  access_token : Jwt
  refresh_token : Jwt
  token_type : String
deriving DecidableEq, Repr

/-- The `register` handler from `app/main.py`: 400 "Email already
registered" when the email resolves to an existing user; otherwise hash
the password (fresh salt passed in), create the user (fresh uuid passed
in), return the public view. The store after the call is the second
component. -/
def register (db : DB) (email username password : String) (full_name : Option String)
    (user_id : String) (salt : Nat) (now : Nat) :
    Except HTTPException UserResponse × DB :=
  match get_user_by_email db email with
  | some _ => (.error ⟨400, "Email already registered"⟩, db)
  | none =>
    let hashed_password := get_password_hash password salt
    let r := create_user db user_id email username hashed_password full_name now
    (.ok r.1.toResponse, r.2)

/-- The `login` handler from `app/main.py`: unknown email → 401; wrong
password → the same 401; inactive account → 403; else a fresh
access/refresh pair. Never mutates the store. -/
def login (db : DB) (email password : String) (now : Nat) :
    Except HTTPException TokenPair :=
  match get_user_by_email db email with
  | none => .error ⟨401, "Incorrect email or password"⟩
  | some user =>
    if verify_password password user.hashed_password = false then
      .error ⟨401, "Incorrect email or password"⟩
    else if user.is_active = false then
      .error ⟨403, "Account is deactivated"⟩
    else
      .ok ⟨create_access_token user.id user.email now (some ACCESS_TOKEN_EXPIRE_SECONDS),
           create_refresh_token user.id user.email now,
           "bearer"⟩

/-- The `refresh_token` handler from `app/main.py`: verify as kind
"refresh"; falsy (`not`) `sub`/`email` claims → 401 "Invalid refresh
token"; absent or inactive user → 401 "Invalid user"; else a fresh pair
built from the claims. -/
def refresh_token (db : DB) (token : Jwt) (now : Nat) :
    Except HTTPException TokenPair :=
  match verify_token token "refresh" now with
  | .error e => .error e
  | .ok payload =>
    match payload.sub, payload.email with
    | some user_id, some email =>
      if user_id = "" ∨ email = "" then
        .error ⟨401, "Invalid refresh token"⟩
      else
        match get_user_by_id db user_id with
        | none => .error ⟨401, "Invalid user"⟩
        | some user =>
          if user.is_active = false then
            .error ⟨401, "Invalid user"⟩
          else
            .ok ⟨create_access_token user_id email now (some ACCESS_TOKEN_EXPIRE_SECONDS),
                 create_refresh_token user_id email now,
                 "bearer"⟩
    | _, _ => .error ⟨401, "Invalid refresh token"⟩

/-- The `/me` handler (`get_current_user_info` in `app/main.py`):
authenticate via the access token, re-fetch the user by id, 404 if the
record is gone, else return the public view. No `is_active` check. -/
def get_current_user_info (db : DB) (token : Jwt) (now : Nat) :
    Except HTTPException UserResponse :=
  match get_current_user token now with
  | .error e => .error e
  | .ok current_user =>
    match get_user_by_id db current_user.user_id with
    | none => .error ⟨404, "User not found"⟩
    | some user => .ok user.toResponse

/-- The `change_password` handler from `app/main.py`: authenticate,
re-fetch the user (404 if gone), verify `old_password` against the
stored hash (400 "Incorrect password" if wrong), then hash
`new_password` (fresh salt passed in) and persist it. The store after
the call is the second component. -/
def change_password (db : DB) (token : Jwt) (old_password new_password : String)
    (salt : Nat) (now : Nat) :
    Except HTTPException String × DB :=
  match get_current_user token now with
  | .error e => (.error e, db)
  | .ok current_user =>
    match get_user_by_id db current_user.user_id with
    | none => (.error ⟨404, "User not found"⟩, db)
    | some user =>
      if verify_password old_password user.hashed_password = false then
        (.error ⟨400, "Incorrect password"⟩, db)
      else
        let new_hashed_password := get_password_hash new_password salt
        let r := update_user_password db current_user.user_id new_hashed_password
        (.ok "Password changed successfully", r.2)

/-! ## Sample data for witnesses -/

/-- A concrete stored hash for the password "correct horse". -/
def sampleHash : BcryptHash := bcrypt_hashpw "correct horse" 7

/-- A concrete active user. -/
def sampleUser : User :=
  ⟨"id-1", "a@x.com", "alice", sampleHash, none, 0, true⟩

/-- A concrete store holding exactly `sampleUser`. -/
def sampleDB : DB :=
  ⟨fun k => if k = "id-1" then some sampleUser else none,
   fun e => if e = "a@x.com" then some "id-1" else none⟩

/-- A concrete deactivated user (same credentials as `sampleUser`). -/
def sampleInactiveUser : User :=
  ⟨"id-2", "b@x.com", "bob", sampleHash, none, 0, false⟩

/-- A concrete store holding exactly `sampleInactiveUser`. -/
def sampleInactiveDB : DB :=
  ⟨fun k => if k = "id-2" then some sampleInactiveUser else none,
   fun e => if e = "b@x.com" then some "id-2" else none⟩

/-! ## Claims -/

/-- C1: a token issued by `create_access_token` always fails
`verify_token` against expected kind "refresh", and a token issued by
`create_refresh_token` always fails against expected kind "access",
each with a 401 Unauthenticated error, at every verification time —
in particular even before expiry. -/
theorem token_kind_cross_verification_fails (user_id email : String)
    (issued_at now : Nat) (expires_delta : Option Nat) :
    verify_token (create_access_token user_id email issued_at expires_delta) "refresh" now
      = .error ⟨401, "Could not validate credentials"⟩ ∧
    verify_token (create_refresh_token user_id email issued_at) "access" now
      = .error ⟨401, "Could not validate credentials"⟩ := by
  constructor <;>
    simp [verify_token, create_access_token, create_refresh_token, jwt_decode]

/-- C2: a login with an email of an existing user but a wrong password
and a login with an email not in the store fail with the same status
code (401) and the same error message, at any store states and times. -/
theorem login_failures_indistinguishable (db₁ db₂ : DB)
    (email₁ pw₁ email₂ pw₂ : String) (now₁ now₂ : Nat) (u : User)
    (h₁ : get_user_by_email db₁ email₁ = some u)
    (h₂ : verify_password pw₁ u.hashed_password = false)
    (h₃ : get_user_by_email db₂ email₂ = none) :
    login db₁ email₁ pw₁ now₁ = .error ⟨401, "Incorrect email or password"⟩ ∧
    login db₂ email₂ pw₂ now₂ = .error ⟨401, "Incorrect email or password"⟩ := by
  constructor
  · unfold login
    rw [h₁]
    simp [h₂]
  · unfold login
    rw [h₃]

/-- Witness for C2 at a concrete store, user and passwords. -/
theorem login_failures_indistinguishable_witness :
    (get_user_by_email sampleDB "a@x.com" = some sampleUser ∧
     verify_password "wrong pw" sampleUser.hashed_password = false ∧
     get_user_by_email DB.empty "ghost@x.com" = none) ∧
    (login sampleDB "a@x.com" "wrong pw" 3 = .error ⟨401, "Incorrect email or password"⟩ ∧
     login DB.empty "ghost@x.com" "anything" 4 = .error ⟨401, "Incorrect email or password"⟩) := by
  refine ⟨⟨by decide, by decide, by decide⟩, ?_⟩
  exact login_failures_indistinguishable sampleDB DB.empty "a@x.com" "wrong pw"
    "ghost@x.com" "anything" 3 4 sampleUser (by decide) (by decide) (by decide)

/-- C3: when some user already holds the email, `register` fails with
400 "Email already registered" regardless of the username, password and
full name supplied, and returns the store unchanged. -/
theorem register_existing_email_conflict (db : DB) (email username password : String)
    (full_name : Option String) (user_id : String) (salt now : Nat) (u : User)
    (h : get_user_by_email db email = some u) :
    register db email username password full_name user_id salt now
      = (.error ⟨400, "Email already registered"⟩, db) := by
  unfold register
  rw [h]

/-- Witness for C3 at a concrete occupied store. -/
theorem register_existing_email_conflict_witness :
    get_user_by_email sampleDB "a@x.com" = some sampleUser ∧
    register sampleDB "a@x.com" "other" "pw123456" none "id-9" 5 10
      = (.error ⟨400, "Email already registered"⟩, sampleDB) := by
  refine ⟨by decide, ?_⟩
  exact register_existing_email_conflict sampleDB "a@x.com" "other" "pw123456"
    none "id-9" 5 10 sampleUser (by decide)

/-- C8: `verify_password P (get_password_hash P s)` holds for every
password and salt, and two hashes of the same password under distinct
fresh salts are distinct strings that both verify the password. -/
theorem password_hash_roundtrip (password : String) (salt₁ salt₂ : Nat)
    (h : salt₁ ≠ salt₂) :
    verify_password password (get_password_hash password salt₁) = true ∧
    get_password_hash password salt₁ ≠ get_password_hash password salt₂ ∧
    verify_password password (get_password_hash password salt₂) = true := by
  refine ⟨?_, ?_, ?_⟩
  · simp [verify_password, bcrypt_checkpw, get_password_hash, bcrypt_hashpw]
  · simp [get_password_hash, bcrypt_hashpw]
    exact h
  · simp [verify_password, bcrypt_checkpw, get_password_hash, bcrypt_hashpw]

/-- Witness for C8 at a concrete password and two distinct salts. -/
theorem password_hash_roundtrip_witness :
    (3 : Nat) ≠ 5 ∧
    (verify_password "hunter22" (get_password_hash "hunter22" 3) = true ∧
     get_password_hash "hunter22" 3 ≠ get_password_hash "hunter22" 5 ∧
     verify_password "hunter22" (get_password_hash "hunter22" 5) = true) := by
  exact ⟨by decide, password_hash_roundtrip "hunter22" 3 5 (by decide)⟩

/-- C5: for a stored but deactivated user, login with the correct
password fails 403 "Account is deactivated" (not the credentials
error), while login with a wrong password fails 401 "Incorrect email or
password" — the active check runs only after the password verifies. -/
theorem login_inactive_after_password_check (db : DB) (email good_pw bad_pw : String)
    (now : Nat) (u : User)
    (h : get_user_by_email db email = some u)
    (hin : u.is_active = false)
    (hok : verify_password good_pw u.hashed_password = true)
    (hbad : verify_password bad_pw u.hashed_password = false) :
    login db email good_pw now = .error ⟨403, "Account is deactivated"⟩ ∧
    login db email bad_pw now = .error ⟨401, "Incorrect email or password"⟩ := by
  constructor
  · unfold login
    rw [h]
    simp [hok, hin]
  · unfold login
    rw [h]
    simp [hbad]

/-- Witness for C5 at a concrete deactivated user. -/
theorem login_inactive_after_password_check_witness :
    (get_user_by_email sampleInactiveDB "b@x.com" = some sampleInactiveUser ∧
     sampleInactiveUser.is_active = false ∧
     verify_password "correct horse" sampleInactiveUser.hashed_password = true ∧
     verify_password "guess" sampleInactiveUser.hashed_password = false) ∧
    (login sampleInactiveDB "b@x.com" "correct horse" 9
       = .error ⟨403, "Account is deactivated"⟩ ∧
     login sampleInactiveDB "b@x.com" "guess" 9
       = .error ⟨401, "Incorrect email or password"⟩) := by
  refine ⟨⟨by decide, by decide, by decide, by decide⟩, ?_⟩
  exact login_inactive_after_password_check sampleInactiveDB "b@x.com" "correct horse"
    "guess" 9 sampleInactiveUser (by decide) (by decide) (by decide) (by decide)

/-- C9: `create_user` called with an email already in the index does not
fail: it creates a second record under the fresh id, repoints the email
index to the new id, and leaves the first record in `users_db` but no
longer reachable by email lookup. -/
theorem create_user_does_not_enforce_email_uniqueness (db : DB)
    (old_id new_id email username : String) (hashed : BcryptHash)
    (full_name : Option String) (now : Nat) (u₁ : User)
    (hidx : db.user_email_index email = some old_id)
    (hrec : db.users_db old_id = some u₁)
    (hfresh : new_id ≠ old_id)
    (hne : new_id ≠ "") :
    (create_user db new_id email username hashed full_name now).2.users_db old_id
      = some u₁ ∧
    (create_user db new_id email username hashed full_name now).2.user_email_index email
      = some new_id ∧
    get_user_by_email (create_user db new_id email username hashed full_name now).2 email
      = some (create_user db new_id email username hashed full_name now).1 ∧
    (create_user db new_id email username hashed full_name now).1.id = new_id := by
  refine ⟨?_, ?_, ?_, rfl⟩
  · have h' : old_id ≠ new_id := Ne.symm hfresh
    simp [create_user, h']
    exact hrec
  · simp [create_user]
  · simp [get_user_by_email, create_user, hne]

/-- Witness for C9: inserting a second user under the occupied email
"a@x.com" of `sampleDB`. -/
theorem create_user_does_not_enforce_email_uniqueness_witness :
    (sampleDB.user_email_index "a@x.com" = some "id-1" ∧
     sampleDB.users_db "id-1" = some sampleUser ∧
     "id-7" ≠ "id-1" ∧ "id-7" ≠ "") ∧
    ((create_user sampleDB "id-7" "a@x.com" "alice2" sampleHash none 5).2.users_db "id-1"
       = some sampleUser ∧
     (create_user sampleDB "id-7" "a@x.com" "alice2" sampleHash none 5).2.user_email_index "a@x.com"
       = some "id-7" ∧
     get_user_by_email (create_user sampleDB "id-7" "a@x.com" "alice2" sampleHash none 5).2 "a@x.com"
       = some (create_user sampleDB "id-7" "a@x.com" "alice2" sampleHash none 5).1 ∧
     (create_user sampleDB "id-7" "a@x.com" "alice2" sampleHash none 5).1.id = "id-7") := by
  refine ⟨⟨by decide, by decide, by decide, by decide⟩, ?_⟩
  exact create_user_does_not_enforce_email_uniqueness sampleDB "id-1" "id-7" "a@x.com"
    "alice2" sampleHash none 5 sampleUser (by decide) (by decide) (by decide) (by decide)

/-- C4: for an unexpired refresh token carrying user id U (non-empty
claims, as issued by the flows), refresh fails 401 when U's record is
absent or inactive — in particular after `deactivate_user` — and
succeeds exactly while U exists and is active. -/
theorem refresh_requires_active_user (db : DB) (user_id email : String)
    (issued_at now : Nat)
    (hid : user_id ≠ "") (hem : email ≠ "")
    (hexp : now ≤ issued_at + REFRESH_TOKEN_EXPIRE_SECONDS) :
    (get_user_by_id db user_id = none →
      refresh_token db (create_refresh_token user_id email issued_at) now
        = .error ⟨401, "Invalid user"⟩) ∧
    (∀ u, get_user_by_id db user_id = some u → u.is_active = false →
      refresh_token db (create_refresh_token user_id email issued_at) now
        = .error ⟨401, "Invalid user"⟩) ∧
    (∀ u, get_user_by_id db user_id = some u →
      refresh_token (deactivate_user db user_id).2
          (create_refresh_token user_id email issued_at) now
        = .error ⟨401, "Invalid user"⟩) ∧
    ((refresh_token db (create_refresh_token user_id email issued_at) now).isOk = true ↔
      ∃ u, get_user_by_id db user_id = some u ∧ u.is_active = true) := by
  have hdecode :
      verify_token (create_refresh_token user_id email issued_at) "refresh" now
        = .ok ⟨some user_id, some email, issued_at + REFRESH_TOKEN_EXPIRE_SECONDS, "refresh"⟩ := by
    simp [verify_token, create_refresh_token, jwt_decode, hexp]
  refine ⟨?_, ?_, ?_, ?_⟩
  · intro habs
    unfold refresh_token
    rw [hdecode]
    simp [hid, hem, habs]
  · intro u hu hin
    unfold refresh_token
    rw [hdecode]
    simp [hid, hem, hu, hin]
  · intro u hu
    have hu' : (deactivate_user db user_id).2.users_db user_id
        = some { u with is_active := false } := by
      unfold deactivate_user
      unfold get_user_by_id at hu
      rw [hu]
      simp
    unfold refresh_token
    rw [hdecode]
    simp [hid, hem, get_user_by_id, hu']
  · unfold refresh_token
    rw [hdecode]
    simp only [hid, hem]
    cases hlook : get_user_by_id db user_id with
    | none => simp [hid, hem, hlook, Except.isOk, Except.toBool]
    | some u =>
      cases hact : u.is_active with
      | false => simp [hid, hem, hlook, hact, Except.isOk, Except.toBool]
      | true => simp [hid, hem, hlook, hact, Except.isOk, Except.toBool]

/-- Witness for C4: after deactivating `sampleUser`, its still-unexpired
refresh token is rejected with 401 "Invalid user". -/
theorem refresh_requires_active_user_witness :
    ("id-1" ≠ "" ∧ "a@x.com" ≠ "" ∧
      (20 : Nat) ≤ 0 + REFRESH_TOKEN_EXPIRE_SECONDS ∧
      get_user_by_id sampleDB "id-1" = some sampleUser) ∧
    refresh_token (deactivate_user sampleDB "id-1").2
        (create_refresh_token "id-1" "a@x.com" 0) 20
      = .error ⟨401, "Invalid user"⟩ := by
  refine ⟨⟨by decide, by decide, by decide, by decide⟩, ?_⟩
  exact (refresh_requires_active_user sampleDB "id-1" "a@x.com" 0 20
    (by decide) (by decide) (by decide)).2.2.1 sampleUser (by decide)

/-- C7: for an authenticated user (unexpired access token, record
present), `change_password` with a wrong old password fails 400
"Incorrect password" and leaves the store exactly unchanged; with the
correct old password it succeeds and persists the hash of the new
password under the fresh salt. -/
theorem change_password_requires_old_password (db : DB) (user_id email : String)
    (old_pw new_pw : String) (issued_at delta salt now : Nat) (u : User)
    (hexp : now ≤ issued_at + delta)
    (hu : get_user_by_id db user_id = some u) :
    (verify_password old_pw u.hashed_password = false →
      change_password db (create_access_token user_id email issued_at (some delta))
          old_pw new_pw salt now
        = (.error ⟨400, "Incorrect password"⟩, db)) ∧
    (verify_password old_pw u.hashed_password = true →
      (change_password db (create_access_token user_id email issued_at (some delta))
          old_pw new_pw salt now).1
        = .ok "Password changed successfully" ∧
      get_user_by_id (change_password db
            (create_access_token user_id email issued_at (some delta))
            old_pw new_pw salt now).2 user_id
        = some { u with hashed_password := get_password_hash new_pw salt }) := by
  have hcur :
      get_current_user (create_access_token user_id email issued_at (some delta)) now
        = .ok ⟨user_id, email⟩ := by
    simp [get_current_user, verify_token, create_access_token, jwt_decode, hexp]
  constructor
  · intro hbad
    unfold change_password
    rw [hcur]
    simp only []
    rw [hu]
    simp [hbad]
  · intro hok
    unfold change_password
    rw [hcur]
    simp only []
    rw [hu]
    simp only [hok, Bool.true_eq_false, if_false, ite_false]
    constructor
    · simp [hok]
    · have hupd :
          (update_user_password db user_id (get_password_hash new_pw salt)).2.users_db user_id
            = some { u with hashed_password := get_password_hash new_pw salt } := by
        unfold update_user_password
        unfold get_user_by_id at hu
        rw [hu]
        simp
      simp [hok, get_user_by_id, hupd]

/-- Witness for C7, correct-old-password side, at `sampleDB`. -/
theorem change_password_requires_old_password_witness :
    ((20 : Nat) ≤ 0 + 1800 ∧
     get_user_by_id sampleDB "id-1" = some sampleUser ∧
     verify_password "correct horse" sampleUser.hashed_password = true) ∧
    ((change_password sampleDB (create_access_token "id-1" "a@x.com" 0 (some 1800))
        "correct horse" "new password" 11 20).1 = .ok "Password changed successfully" ∧
     get_user_by_id (change_password sampleDB
         (create_access_token "id-1" "a@x.com" 0 (some 1800))
         "correct horse" "new password" 11 20).2 "id-1"
       = some { sampleUser with hashed_password := get_password_hash "new password" 11 }) := by
  refine ⟨⟨by decide, by decide, by decide⟩, ?_⟩
  exact (change_password_requires_old_password sampleDB "id-1" "a@x.com"
    "correct horse" "new password" 0 1800 11 20 sampleUser (by decide) (by decide)).2
    (by decide)

/-- C10: neither `/me` nor `change_password` checks `is_active`: with a
still-valid access token for a deactivated but existing user, `/me`
returns 200 with the user view (showing `is_active = false`), and
`change_password` with the correct old password succeeds. -/
theorem inactive_user_me_and_change_password_succeed (db : DB)
    (user_id email old_pw new_pw : String) (issued_at delta salt now : Nat) (u : User)
    (hexp : now ≤ issued_at + delta)
    (hu : get_user_by_id db user_id = some u)
    (hin : u.is_active = false)
    (hpw : verify_password old_pw u.hashed_password = true) :
    get_current_user_info db (create_access_token user_id email issued_at (some delta)) now
      = .ok u.toResponse ∧
    u.toResponse.is_active = false ∧
    (change_password db (create_access_token user_id email issued_at (some delta))
        old_pw new_pw salt now).1
      = .ok "Password changed successfully" := by
  have hcur :
      get_current_user (create_access_token user_id email issued_at (some delta)) now
        = .ok ⟨user_id, email⟩ := by
    simp [get_current_user, verify_token, create_access_token, jwt_decode, hexp]
  refine ⟨?_, ?_, ?_⟩
  · unfold get_current_user_info
    rw [hcur]
    simp only []
    rw [hu]
  · simp [User.toResponse, hin]
  · unfold change_password
    rw [hcur]
    simp only []
    rw [hu]
    simp [hpw]

/-- Witness for C10 at the deactivated `sampleInactiveUser`. -/
theorem inactive_user_me_and_change_password_succeed_witness :
    ((40 : Nat) ≤ 0 + 1800 ∧
     get_user_by_id sampleInactiveDB "id-2" = some sampleInactiveUser ∧
     sampleInactiveUser.is_active = false ∧
     verify_password "correct horse" sampleInactiveUser.hashed_password = true) ∧
    (get_current_user_info sampleInactiveDB
        (create_access_token "id-2" "b@x.com" 0 (some 1800)) 40
      = .ok sampleInactiveUser.toResponse ∧
     sampleInactiveUser.toResponse.is_active = false ∧
     (change_password sampleInactiveDB
         (create_access_token "id-2" "b@x.com" 0 (some 1800))
         "correct horse" "brand new pw" 13 40).1
       = .ok "Password changed successfully") := by
  refine ⟨⟨by decide, by decide, by decide, by decide⟩, ?_⟩
  exact inactive_user_me_and_change_password_succeed sampleInactiveDB "id-2" "b@x.com"
    "correct horse" "brand new pw" 0 1800 13 40 sampleInactiveUser
    (by decide) (by decide) (by decide) (by decide)

/-- C6: a successful `change_password` (correct old password) does not
invalidate a still-unexpired access token issued earlier: the same
token still passes `verify_token` afterwards — token validity never
consults the stored hash — and a subsequent `/me` call on the updated
store still succeeds, returning the user view. -/
theorem change_password_does_not_invalidate_access_token (db : DB)
    (user_id email old_pw new_pw : String) (issued_at delta salt now₁ now₂ : Nat)
    (u : User)
    (hexp₁ : now₁ ≤ issued_at + delta)
    (hexp₂ : now₂ ≤ issued_at + delta)
    (hu : get_user_by_id db user_id = some u)
    (hpw : verify_password old_pw u.hashed_password = true) :
    (change_password db (create_access_token user_id email issued_at (some delta))
        old_pw new_pw salt now₁).1
      = .ok "Password changed successfully" ∧
    verify_token (create_access_token user_id email issued_at (some delta)) "access" now₂
      = .ok ⟨some user_id, some email, issued_at + delta, "access"⟩ ∧
    get_current_user_info
        (change_password db (create_access_token user_id email issued_at (some delta))
          old_pw new_pw salt now₁).2
        (create_access_token user_id email issued_at (some delta)) now₂
      = .ok (User.toResponse { u with hashed_password := get_password_hash new_pw salt }) := by
  have hcur₁ :
      get_current_user (create_access_token user_id email issued_at (some delta)) now₁
        = .ok ⟨user_id, email⟩ := by
    simp [get_current_user, verify_token, create_access_token, jwt_decode, hexp₁]
  have hcur₂ :
      get_current_user (create_access_token user_id email issued_at (some delta)) now₂
        = .ok ⟨user_id, email⟩ := by
    simp [get_current_user, verify_token, create_access_token, jwt_decode, hexp₂]
  have hupd :
      (update_user_password db user_id (get_password_hash new_pw salt)).2.users_db user_id
        = some { u with hashed_password := get_password_hash new_pw salt } := by
    unfold update_user_password
    unfold get_user_by_id at hu
    rw [hu]
    simp
  have hchg :
      change_password db (create_access_token user_id email issued_at (some delta))
          old_pw new_pw salt now₁
        = (.ok "Password changed successfully",
           (update_user_password db user_id (get_password_hash new_pw salt)).2) := by
    unfold change_password
    rw [hcur₁]
    simp only []
    rw [hu]
    simp [hpw]
  refine ⟨?_, ?_, ?_⟩
  · rw [hchg]
  · simp [verify_token, create_access_token, jwt_decode, hexp₂]
  · rw [hchg]
    unfold get_current_user_info
    rw [hcur₂]
    simp only []
    rw [show get_user_by_id (update_user_password db user_id
        (get_password_hash new_pw salt)).2 user_id
      = some { u with hashed_password := get_password_hash new_pw salt } from hupd]

/-- Witness for C6 at `sampleDB`: the token issued at time 0 still
authenticates `/me` at time 100 after the password change at time 50. -/
theorem change_password_does_not_invalidate_access_token_witness :
    ((50 : Nat) ≤ 0 + 1800 ∧ (100 : Nat) ≤ 0 + 1800 ∧
     get_user_by_id sampleDB "id-1" = some sampleUser ∧
     verify_password "correct horse" sampleUser.hashed_password = true) ∧
    ((change_password sampleDB (create_access_token "id-1" "a@x.com" 0 (some 1800))
        "correct horse" "fresh pw 1234" 21 50).1 = .ok "Password changed successfully" ∧
     verify_token (create_access_token "id-1" "a@x.com" 0 (some 1800)) "access" 100
       = .ok ⟨some "id-1", some "a@x.com", 0 + 1800, "access"⟩ ∧
     get_current_user_info
         (change_password sampleDB (create_access_token "id-1" "a@x.com" 0 (some 1800))
           "correct horse" "fresh pw 1234" 21 50).2
         (create_access_token "id-1" "a@x.com" 0 (some 1800)) 100
       = .ok (User.toResponse
           { sampleUser with hashed_password := get_password_hash "fresh pw 1234" 21 })) := by
  refine ⟨⟨by decide, by decide, by decide, by decide⟩, ?_⟩
  exact change_password_does_not_invalidate_access_token sampleDB "id-1" "a@x.com"
    "correct horse" "fresh pw 1234" 0 1800 21 50 100 sampleUser
    (by decide) (by decide) (by decide) (by decide)

end Swappo
